import Mathlib

/-!
Shallow embedding of the LinkedIn posting automation
(`linkedin_playwright.py` and `main.py` of Amaan4411/Arthlete-vision).

The browser, the network and the remote UI are modelled as an environment
record (`Env`): each blocking wait of the script (navigation, load-state,
selector visibility, post-login URL wait) gets a field recording how the
external world answers it, and each source of randomness gets a natural
number field that the script consumes.  The script itself is translated
statement by statement into a function from that environment to an
`Except`-style outcome together with the list of externally visible
actions it performed (the trace).
-/

/-- Python `needle in haystack` on lists of characters: some suffix of the
haystack starts with the needle. -/
def listHasSub (needle : List Char) : List Char → Bool
  | [] => needle.isEmpty
  | c :: t => List.isPrefixOf needle (c :: t) || listHasSub needle t

/-- Python `needle in haystack` for strings (substring containment). -/
def pyContains (hay needle : String) : Bool :=
  listHasSub needle.toList hay.toList

/-- Python `s.startswith(p)`. -/
def pyStartswith (s p : String) : Bool :=
  List.isPrefixOf p.toList s.toList

/-- Python `random.choice(l)`: the library picks an index below `l.length`;
the environment's natural number is reduced mod the length. -/
def pyChoice {α : Type} (l : List α) (h : 0 < l.length) (i : Nat) : α :=
  l.get ⟨i % l.length, Nat.mod_lt _ h⟩

/-- Python `random.randint(a, b)` (both endpoints inclusive): the
environment's natural number is reduced into `[a, b]`. -/
def pyRandint (a b : Nat) (r : Nat) : Nat :=
  a + r % (b + 1 - a)

/-- The `user_agents` table of `get_random_user_agent`
(`linkedin_playwright.py` lines 85-91). -/
def user_agents : List String :=
  ["Mozilla/5.0 (Windows NT 10.0; Win64; x64; rv:123.0) Gecko/20100101 Firefox/123.0",
   "Mozilla/5.0 (Windows NT 10.0; Win64; x64) AppleWebKit/537.36 (KHTML, like Gecko) Chrome/125.0.0.0 Safari/537.36",
   "Mozilla/5.0 (Macintosh; Intel Mac OS X 10_15_7) AppleWebKit/605.1.15 (KHTML, like Gecko) Version/17.0 Safari/605.1.15",
   "Mozilla/5.0 (Windows NT 10.0; Win64; x64) AppleWebKit/537.36 (KHTML, like Gecko) Edg/125.0.0.0 Chrome/125.0.0.0 Safari/537.36"]

/-- Model of `get_random_user_agent` (lines 84-92). -/
def get_random_user_agent (i : Nat) : String :=
  pyChoice user_agents (by decide) i

/-- The `sizes` table of `get_random_viewport` (lines 96-102). -/
def viewport_sizes : List (Nat × Nat) :=
  [(1920, 1080), (1366, 768), (1536, 864), (1440, 900), (1600, 900)]

/-- Model of `get_random_viewport` (lines 94-103). -/
def get_random_viewport (i : Nat) : Nat × Nat :=
  pyChoice viewport_sizes (by decide) i

/-- The `timezones` table of `get_random_timezone` (lines 106-108). -/
def timezones : List String :=
  ["America/New_York", "Europe/London", "Europe/Paris", "Asia/Kolkata",
   "America/Los_Angeles"]

/-- Model of `get_random_timezone` (lines 105-109). -/
def get_random_timezone (i : Nat) : String :=
  pyChoice timezones (by decide) i

/-- The `locations` table of `get_random_geolocation` (lines 113-119).
The latitude/longitude float literals are exact four-decimal values; they
are represented here as integers in units of 1/10000 degree (no floating
point arithmetic is ever performed on them in the source, they are only
selected and passed to the browser context). -/
def geolocations : List (Int × Int) :=
  [(407128, -740060), (515074, -1278), (488566, 23522), (286139, 772090),
   (340522, -1182437)]

/-- Model of `get_random_geolocation` (lines 111-120). -/
def get_random_geolocation (i : Nat) : Int × Int :=
  pyChoice geolocations (by decide) i

/-- Outcome of one `page.wait_for_selector(sel, state="visible", timeout=..)`
call: the element became visible in time, or (per the source's defensive
`if not x:` branches) the call returned a falsy handle, or the wait timed
out and the Playwright call raised a timeout error. -/
inductive SelRes
  | found
  | missing
  | timedOut
  deriving DecidableEq, Repr

/-- The exceptions the script can terminate with: `sys.exit(n)`
(a `SystemExit`), a Playwright timeout error from a bounded wait
(tagged with the wait's target), a non-timeout Playwright/launch error,
or an explicit `raise Exception(msg)` from the script itself. -/
inductive PyError
  | sysExit (n : Nat)
  | timeout (what : String)
  | playwrightError (what : String)
  | exception (msg : String)
  deriving DecidableEq, Repr

/-- Externally visible actions of `post_to_linkedin`, in program order. -/
inductive Event
  | launchBrowser
  | newContext (ua : String) (w h : Nat) (tz : String) (lat lon : Int)
  | gotoHome
  | gotoLogin
  | typeEmail
  | typePassword
  | clickSignIn
  | clickStartPost
  | typeText (text : String)
  | attachImage (path : String)
  | locatePostButton
  | clickPostButton
  | settleWait (ms : Nat)
  | recordURL (url : String)
  | screenshotSaved (path : String)
  | closeBrowser
  | removeTemp (path : String)
  deriving DecidableEq, Repr

/-- The environment of one run of `post_to_linkedin`: how each blocking
wait resolves, what the page URL reads when inspected, the randomness the
script consumes, and the ambient process facts (credentials present,
`tempfile.gettempdir()`, `os.path.exists`). -/
structure Env where
  credsPresent : Bool
  launchOk : Bool
  contextOk : Bool
  pageOk : Bool
  homeNavOk : Bool
  homeIdleOk : Bool
  loginNav : Nat → Bool
  loginIdleOk : Bool
  emailSel : SelRes
  passwordSel : SelRes
  submitSel : SelRes
  loginWaitOk : Bool
  urlAfterLogin : String
  feedIdleOk : Bool
  startPostSel : SelRes
  textboxSel : SelRes
  photoSel : SelRes
  fileInputSel : SelRes
  uploadSel : SelRes
  postBtnSel : SelRes
  settleRand : Nat
  uaIdx : Nat
  vpIdx : Nat
  tzIdx : Nat
  geoIdx : Nat
  fileExists : String → Bool
  screenshotOk : Bool
  diagUrl : String
  tempDir : String

/-- State threaded through the `try` body: the trace so far, and whether
the local variables `browser` and `page` have been bound (the `finally`
and `except` blocks test membership in `locals()`). -/
structure RunSt where
  events : List Event
  browserLaunched : Bool
  pageCreated : Bool
  deriving Repr

/-- Append one action to the trace. -/
def emit (st : RunSt) (e : Event) : RunSt :=
  { st with events := st.events ++ [e] }

/-- Sequencing with early exit: a raised exception aborts the rest of the
`try` body but keeps the state for the `except`/`finally` blocks. -/
def andThen (x : RunSt × Except PyError Unit)
    (f : RunSt → RunSt × Except PyError Unit) : RunSt × Except PyError Unit :=
  match x with
  | (st, .ok _) => f st
  | (st, .error e) => (st, .error e)

/-- One `page.wait_for_selector(sel, state="visible", timeout=..)` call
followed by the script's `if not x: raise Exception(missingMsg)` check:
a timed-out wait raises a Playwright timeout error, a falsy handle raises
the script's own exception, a visible element continues. -/
def selWait (st : RunSt) (r : SelRes) (sel missingMsg : String) :
    RunSt × Except PyError Unit :=
  match r with
  | .found => (st, .ok ())
  | .missing => (st, .error (.exception missingMsg))
  | .timedOut => (st, .error (.timeout sel))

/-- The message of the explicit `raise Exception(..)` on line 201, used
when the post-login wait timed out on a checkpoint/challenge URL. -/
def loginChallengeMsg : String :=
  "LinkedIn security check detected. Please try logging in manually first."

/-- Lines 223-238: the image branch.  Entered only when `image_path` is
truthy (non-`None`, non-empty) and `os.path.exists(image_path)`; locates
the photo button and the file input, supplies the file, then blocks on
the render-confirmation selector `img[alt="Post image"]`. -/
def imageStage (env : Env) (st : RunSt) (image_path : Option String) :
    RunSt × Except PyError Unit :=
  match image_path with
  | some p =>
    if !p.isEmpty && env.fileExists p then
      andThen (selWait st env.photoSel "button[aria-label=\"Add a photo\"]"
          "Could not find \x27Add a photo\x27 button") (fun st =>
      andThen (selWait st env.fileInputSel "input[type=\"file\"]"
          "Could not find file input element") (fun st =>
      selWait (emit st (.attachImage p)) env.uploadSel "img[alt=\"Post image\"]"
        "Image upload failed - could not verify image presence"))
    else (st, .ok ())
  | none => (st, .ok ())

/-- The `try` body of `post_to_linkedin` (lines 127-248), translated
statement by statement.  Comments cite the source lines. -/
def tryBody (env : Env) (text : String) (image_path : Option String) :
    RunSt × Except PyError Unit :=
  -- lines 128-136: the fingerprint is drawn once, before the browser starts
  let ua := get_random_user_agent env.uaIdx
  let vp := get_random_viewport env.vpIdx
  let tz := get_random_timezone env.tzIdx
  let geo := get_random_geolocation env.geoIdx
  -- lines 138-145: browser = p.firefox.launch(..)
  if env.launchOk = false then
    ({ events := [], browserLaunched := false, pageCreated := false },
     .error (.playwrightError "firefox.launch"))
  else
  let st : RunSt :=
    { events := [.launchBrowser], browserLaunched := true, pageCreated := false }
  -- lines 146-164: context configured with the fingerprint, masking init
  -- scripts, default timeouts
  if env.contextOk = false then (st, .error (.playwrightError "new_context")) else
  let st := emit st (.newContext ua vp.1 vp.2 tz geo.1 geo.2)
  -- line 165: page = context.new_page()
  if env.pageOk = false then (st, .error (.playwrightError "new_page")) else
  let st := { st with pageCreated := true }
  -- lines 167-168: navigate to the homepage (one attempt), wait networkidle
  if env.homeNavOk = false then
    (st, .error (.timeout "goto https://www.linkedin.com")) else
  let st := emit st .gotoHome
  if env.homeIdleOk = false then
    (st, .error (.timeout "networkidle after home")) else
  -- lines 170-171: navigate to the login page — the script makes exactly
  -- one attempt, consuming the environment's answer for attempt 0
  if env.loginNav 0 = false then
    (st, .error (.timeout "goto https://www.linkedin.com/login")) else
  let st := emit st .gotoLogin
  if env.loginIdleOk = false then
    (st, .error (.timeout "networkidle after login page")) else
  -- line 173: human-like mouse movement (no failure mode)
  -- lines 175-180: email and password fields
  andThen (selWait st env.emailSel "input[name=\"session_key\"]"
      "Could not find email input field") (fun st =>
  andThen (selWait st env.passwordSel "input[name=\"session_password\"]"
      "Could not find password input field") (fun st =>
  -- lines 181-188: human-paced credential typing
  let st := emit (emit st .typeEmail) .typePassword
  -- lines 190-193: submit button
  andThen (selWait st env.submitSel "button[type=\"submit\"]"
      "Could not find submit button") (fun st =>
  let st := emit st .clickSignIn
  -- lines 194-202: wait for the feed URL; on timeout inspect page.url and
  -- raise the challenge exception or re-raise the original timeout
  if env.loginWaitOk = false then
    (if pyContains env.urlAfterLogin "checkpoint" ||
        pyContains env.urlAfterLogin "challenge" then
       (st, .error (.exception loginChallengeMsg))
     else (st, .error (.timeout "wait_for_url https://www.linkedin.com/feed/")))
  else
  if env.feedIdleOk = false then
    (st, .error (.timeout "networkidle after feed")) else
  -- lines 206-209: human-like scrolling (no failure mode)
  -- lines 211-214: the compose trigger
  andThen (selWait st env.startPostSel "button[aria-label=\"Start a post\"]"
      "Could not find \x27Start a post\x27 button") (fun st =>
  let st := emit st .clickStartPost
  -- lines 216-218: the post text box
  andThen (selWait st env.textboxSel "div[role=\"textbox\"]"
      "Could not find post text box") (fun st =>
  let st := emit st (.typeText text)
  -- lines 223-238: the image branch
  andThen (imageStage env st image_path) (fun st =>
  -- lines 240-245: locate and click the post-submit control
  let st := emit st .locatePostButton
  andThen (selWait st env.postBtnSel "button[data-control-name=\"share.post\"]"
      "Could not find post button") (fun st =>
  let st := emit st .clickPostButton
  -- line 247: page.wait_for_timeout(random.randint(8000, 12000))
  let st := emit st (.settleWait (pyRandint 8000 12000 env.settleRand))
  (st, .ok ()))))))))

/-- The fixed path the diagnostic screenshot is written to (line 255). -/
def errorScreenshotPath : String := "error_screenshot.png"

/-- Model of `post_to_linkedin` (lines 122-267): the credential check that calls
`sys.exit(1)` before the `with`/`try` block, the `try` body, the `except`
block (diagnostics: record `page.url`, attempt the screenshot with its own
failures swallowed, re-raise the original error), and the `finally` block
(close the browser if launched, remove the image file if it is truthy and
lives under `tempfile.gettempdir()`, with removal errors swallowed). -/
def post_to_linkedin (env : Env) (text : String) (image_path : Option String) :
    Except PyError Unit × List Event :=
  if env.credsPresent = false then (.error (.sysExit 1), [])
  else
    let out := tryBody env text image_path
    let st := out.1
    let r := out.2
    let diag : List Event :=
      match r with
      | .ok _ => []
      | .error _ =>
        if st.pageCreated then
          .recordURL env.diagUrl ::
            (if env.screenshotOk then [.screenshotSaved errorScreenshotPath] else [])
        else []
    let cleanup : List Event :=
      (if st.browserLaunched then [.closeBrowser] else []) ++
        (match image_path with
         | some p =>
           if !p.isEmpty && pyStartswith p env.tempDir then [.removeTemp p] else []
         | none => [])
    (r, st.events ++ diag ++ cleanup)

/-- Whitespace in the sense of Python's `str.strip()` (the characters the
sheet cells can realistically carry). -/
def isSpaceChar (c : Char) : Bool :=
  c = ' ' || c = '\t' || c = '\n' || c = '\r'

/-- Python `s.strip()`: drop leading and trailing whitespace. -/
def pyStrip (s : String) : String :=
  ⟨((s.toList.dropWhile isSpaceChar).reverse.dropWhile isSpaceChar).reverse⟩

/-- Environment of `get_image_path` (lines 59-82): whether the one-shot
`requests.get` download succeeds, the file name `tempfile.NamedTemporaryFile`
chooses inside `tempfile.gettempdir()` (the OS-chosen base name together
with the suffix computed from the URL is abstracted as one string, since
nothing downstream depends on the name beyond its directory), the directory
of the script (for `IMAGES_DIR = dirname(__file__)/images`), and
`os.path.exists` on local candidate paths. -/
structure FetchEnv where
  downloadOk : Bool
  tempStem : String
  scriptDir : String
  localExists : String → Bool

/-- Model of `get_image_path` (lines 59-82): empty cell resolves to nothing; a cell
starting with `http://` or `https://` is downloaded once, written to a
temporary file under the temp directory on success and degrading to
nothing on any download error; anything else is looked up under
`IMAGES_DIR`, degrading to nothing when the file does not exist. -/
def get_image_path (fe : FetchEnv) (tempDir : String) (image_cell : String) :
    Option String :=
  if image_cell.isEmpty then none
  else
    let cell := pyStrip image_cell
    if pyStartswith cell "http://" || pyStartswith cell "https://" then
      if fe.downloadOk then some (tempDir ++ "/" ++ fe.tempStem) else none
    else
      let localPath := fe.scriptDir ++ "/images/" ++ cell
      if fe.localExists localPath then some localPath else none

/-- Python `str.lower()` on one character: ASCII case folding, exactly
the range the environment variable values involved can contain. -/
def pyLowerChar (c : Char) : Char :=
  if 65 <= c.toNat && c.toNat <= 90 then Char.ofNat (c.toNat + 32) else c

/-- Python `s.lower()`. -/
def pyLower (s : String) : String :=
  ⟨s.toList.map pyLowerChar⟩

/-- The row predicate of the today-row search shared by both `main`
versions (`len(row) > 0 and row[0] == today_str`). -/
def isTodayRow (today : String) (row : List String) : Bool :=
  match row with
  | [] => false
  | c :: _ => c == today

/-- The hour-of-day fallback shared by both `get_time_slot` versions
(lines 48-57 of `linkedin_playwright.py`, lines 68-77 of `main.py`). -/
def slotFromHour (hour : Nat) : String :=
  if hour = 13 then "morning"
  else if hour = 17 then "afternoon"
  else if hour = 20 then "evening"
  else "morning"

/-- Model of `get_time_slot` (lines 44-57): a truthy `POST_SLOT` environment value
is lowercased and returned without any validation; an unset or empty value
falls back to the hour of day. -/
def get_time_slot (postSlot : Option String) (hour : Nat) : String :=
  match postSlot with
  | some s => if s.isEmpty then slotFromHour hour else pyLower s
  | none => slotFromHour hour

/-- The `COLUMN_MAP` dict of `linkedin_playwright.py` (lines 23-27), as a
partial lookup: `none` models a `KeyError` on subscription. -/
def COLUMN_MAP (slot : String) : Option (String × String) :=
  if slot = "morning" then some ("Morning (1 PM)", "Morning Image")
  else if slot = "afternoon" then some ("Afternoon (5 PM)", "Afternoon Image")
  else if slot = "evening" then some ("Evening (8 PM)", "Evening Image")
  else none

/-- The `COLUMN_MAP` dict of `main.py` (lines 27-31). -/
def COLUMN_MAP_py (slot : String) : Option String :=
  if slot = "morning" then some ("Morning (1 PM)")
  else if slot = "afternoon" then some ("Afternoon (5 PM)")
  else if slot = "evening" then some ("Evening (8 PM)")
  else none

/-- How each `main` run can terminate: `sys.exit(n)`, an unhandled
`KeyError` from a dict subscription, the `ValueError` of
`get_google_creds`, or an exception propagated out of `post_to_linkedin`. -/
inductive MainError
  | sysExit (n : Nat)
  | keyError (key : String)
  | raisedValueError (msg : String)
  | fromPost (e : PyError)
  deriving DecidableEq, Repr

/-- Externally visible actions of the `main` drivers: the sheet fetch, the
empty-sheet email notification (`main.py` only), and the attempt to post
(the call into the posting layer, with its arguments). -/
inductive MEvent
  | fetchSheet
  | notifyEmail
  | postAttempt (text : String) (image : Option String)
  deriving DecidableEq, Repr

/-- Environment of `linkedin_playwright.main`: the Google credentials
check, the rows the sheet returns, today's date string, the `POST_SLOT`
environment variable, the current hour, and the environments of the image
fetch and of the browser run. -/
structure MainEnv where
  googleCredsOk : Bool
  sheetData : List (List String)
  todayStr : String
  postSlot : Option String
  hourNow : Nat
  fetch : FetchEnv
  run : Env

/-- Model of `main` of `linkedin_playwright.py` (lines 269-302), translated
statement by statement: credentials, sheet fetch, empty-sheet exit,
today-row search, slot selection, the unguarded `COLUMN_MAP[slot]`
subscription, header checks, content extraction, image resolution, and
the call to `post_to_linkedin` (whose exception, if any, propagates out
of `main` uncaught). -/
def main_lp (m : MainEnv) : Except MainError Unit × List MEvent :=
  if m.googleCredsOk = false then
    (.error (.raisedValueError
      "Google credentials JSON not found in environment variables."), [])
  else
  let data := m.sheetData
  if data.length < 2 then (.error (.sysExit 1), [.fetchSheet])
  else
  let headers := data.headD []
  match data.tail.find? (isTodayRow m.todayStr) with
  | none => (.error (.sysExit 0), [.fetchSheet])
  | some today_row =>
    let slot := get_time_slot m.postSlot m.hourNow
    match COLUMN_MAP slot with
    | none => (.error (.keyError slot), [.fetchSheet])
    | some cols =>
      if (headers.contains cols.1) = false then
        (.error (.sysExit 1), [.fetchSheet])
      else
        let text_idx := headers.indexOf cols.1
        let img_idx :=
          if headers.contains cols.2 then some (headers.indexOf cols.2)
          else none
        let post_text := today_row.getD text_idx ""
        let image_path :=
          match img_idx with
          | some i =>
            if i < today_row.length && !(pyStrip (today_row.getD i "")).isEmpty then
              get_image_path m.fetch m.run.tempDir (pyStrip (today_row.getD i ""))
            else none
          | none => none
        let res := post_to_linkedin m.run post_text image_path
        match res.1 with
        | .ok _ => (.ok (), [.fetchSheet, .postAttempt post_text image_path])
        | .error e =>
          (.error (.fromPost e), [.fetchSheet, .postAttempt post_text image_path])

/-- Environment of `main.py`'s `main`: the seven-secret check, the sheet
rows, today's date string, `POST_SLOT` and the current hour. -/
structure MainPyEnv where
  secretsPresent : Bool
  sheetData : List (List String)
  todayStr : String
  postSlot : Option String
  hourNow : Nat

/-- Model of `main` of `main.py` (lines 100-147).  `send_email_notification` and
`post_to_linkedin_and_update_sheet` swallow their own errors, so they are
modelled as trace events with a normal return. -/
def main_py (m : MainPyEnv) : Except MainError Unit × List MEvent :=
  if m.secretsPresent = false then (.error (.sysExit 1), [])
  else
  let data := m.sheetData
  if data.length < 2 then (.ok (), [.fetchSheet, .notifyEmail])
  else
  let headers := data.headD []
  match data.tail.find? (isTodayRow m.todayStr) with
  | none => (.ok (), [.fetchSheet])
  | some today_row =>
    let slot := get_time_slot m.postSlot m.hourNow
    match COLUMN_MAP_py slot with
    | none => (.error (.keyError slot), [.fetchSheet])
    | some col =>
      if (headers.contains col) = false then (.ok (), [.fetchSheet])
      else
        let col_idx := headers.indexOf col
        if today_row.length ≤ col_idx ||
            (pyStrip (today_row.getD col_idx "")).isEmpty then
          (.ok (), [.fetchSheet])
        else
          (.ok (), [.fetchSheet, .postAttempt (today_row.getD col_idx "") none])

/-- The browser-context event the run emits, determined by the four
fingerprint draws of lines 129-132. -/
def ncEvent (env : Env) : Event :=
  .newContext (get_random_user_agent env.uaIdx)
    (get_random_viewport env.vpIdx).1 (get_random_viewport env.vpIdx).2
    (get_random_timezone env.tzIdx)
    (get_random_geolocation env.geoIdx).1 (get_random_geolocation env.geoIdx).2

/-- Recognizer for browser-context creation events. -/
def isNewContextEv : Event → Bool
  | .newContext _ _ _ _ _ _ => true
  | _ => false

/-- The events the `try` body can emit strictly after the browser context
exists (everything except launch, context creation, and the events of the
`except`/`finally` blocks). -/
def laterEvent : Event → Bool
  | .gotoHome => true
  | .gotoLogin => true
  | .typeEmail => true
  | .typePassword => true
  | .clickSignIn => true
  | .clickStartPost => true
  | .typeText _ => true
  | .attachImage _ => true
  | .locatePostButton => true
  | .clickPostButton => true
  | .settleWait _ => true
  | _ => false

theorem andThen_ok (st : RunSt) (f : RunSt → RunSt × Except PyError Unit) :
    andThen (st, .ok ()) f = f st := rfl

theorem andThen_error (st : RunSt) (e : PyError)
    (f : RunSt → RunSt × Except PyError Unit) :
    andThen (st, .error e) f = (st, .error e) := rfl

theorem selWait_fst (st : RunSt) (r : SelRes) (s m : String) :
    (selWait st r s m).1 = st := by
  cases r <;> rfl

/-- Any property of the threaded state that survives emitting a
`laterEvent` and marking the page created is an invariant of the whole
`try` body from the context-creation point on. -/
theorem tryBody_inv (env : Env) (t : String) (ip : Option String)
    (P : RunSt → Prop)
    (h1 : env.launchOk = true) (h2 : env.contextOk = true)
    (hinit : P { events := [.launchBrowser, ncEvent env],
                 browserLaunched := true, pageCreated := false })
    (hemit : ∀ st e, P st → laterEvent e = true → P (emit st e))
    (hpage : ∀ st, P st → P { st with pageCreated := true }) :
    P (tryBody env t ip).1 := by
  have hinit' :
      P (emit { events := [.launchBrowser],
                browserLaunched := true,
                pageCreated := false } (ncEvent env)) := by
    simpa [emit] using hinit
  unfold tryBody
  simp only [h1, h2, Bool.true_eq_false, if_false, ncEvent] at hinit' ⊢
  by_cases hp : env.pageOk = false
  · simp only [hp, if_true]
    exact hinit'
  · simp only [hp, if_false]
    have p2 := hpage _ hinit'
    generalize hst2 :
      ({ emit { events := [.launchBrowser],
                browserLaunched := true,
                pageCreated := false }
          (Event.newContext (get_random_user_agent env.uaIdx)
            (get_random_viewport env.vpIdx).1 (get_random_viewport env.vpIdx).2
            (get_random_timezone env.tzIdx)
            (get_random_geolocation env.geoIdx).1
            (get_random_geolocation env.geoIdx).2) with
          pageCreated := true } : RunSt) = st2 at p2 ⊢
    clear hinit' hst2
    by_cases hhn : env.homeNavOk = false
    · simp only [hhn, if_true]
      exact p2
    · simp only [hhn, if_false]
      have p3 : P (emit st2 .gotoHome) := hemit _ _ p2 rfl
      by_cases hhi : env.homeIdleOk = false
      · simp only [hhi, if_true]; exact p3
      · simp only [hhi, if_false]
        by_cases hln : env.loginNav 0 = false
        · simp only [hln, if_true]; exact p3
        · simp only [hln, if_false]
          have p4 : P (emit (emit st2 .gotoHome) .gotoLogin) := hemit _ _ p3 rfl
          by_cases hli : env.loginIdleOk = false
          · simp only [hli, if_true]; exact p4
          · simp only [hli, if_false]
            cases he : env.emailSel <;>
              simp only [selWait, andThen, he]
            · cases hpw : env.passwordSel <;>
                simp only [selWait, andThen, hpw]
              · have p5 : P (emit (emit (emit (emit st2 .gotoHome) .gotoLogin)
                    .typeEmail) .typePassword) :=
                  hemit _ _ (hemit _ _ p4 rfl) rfl
                cases hsu : env.submitSel <;>
                  simp only [selWait, andThen, hsu]
                · have p6 : P (emit (emit (emit (emit (emit st2 .gotoHome)
                      .gotoLogin) .typeEmail) .typePassword) .clickSignIn) :=
                    hemit _ _ p5 rfl
                  by_cases hlw : env.loginWaitOk = false
                  · simp only [hlw, if_true]
                    by_cases hch : (pyContains env.urlAfterLogin "checkpoint" ||
                        pyContains env.urlAfterLogin "challenge") = true
                    · simp only [hch, if_true]; exact p6
                    · simp only [hch, if_false]; exact p6
                  · simp only [hlw, if_false]
                    by_cases hfi : env.feedIdleOk = false
                    · simp only [hfi, if_true]; exact p6
                    · simp only [hfi, if_false]
                      cases hsp : env.startPostSel <;>
                        simp only [selWait, andThen, hsp]
                      · have p7 : P (emit (emit (emit (emit (emit (emit st2
                            .gotoHome) .gotoLogin) .typeEmail) .typePassword)
                            .clickSignIn) .clickStartPost) := hemit _ _ p6 rfl
                        cases htb : env.textboxSel <;>
                          simp only [selWait, andThen, htb]
                        · have p8 : P (emit (emit (emit (emit (emit (emit (emit
                              st2 .gotoHome) .gotoLogin) .typeEmail)
                              .typePassword) .clickSignIn) .clickStartPost)
                              (.typeText t)) := hemit _ _ p7 rfl
                          have pimg : ∀ st : RunSt, P st →
                              P (imageStage env st ip).1 := by
                            intro st hstP
                            unfold imageStage
                            cases ip with
                            | none => exact hstP
                            | some p =>
                              by_cases hex : (!p.isEmpty && env.fileExists p)
                                = true
                              · simp only [hex, if_true]
                                cases hph : env.photoSel <;>
                                  simp only [selWait, andThen, hph]
                                · cases hfl : env.fileInputSel <;>
                                    simp only [selWait, andThen, hfl]
                                  · have : P (emit st (.attachImage p)) :=
                                      hemit _ _ hstP rfl
                                    cases hup : env.uploadSel <;>
                                      simp only [selWait] <;> exact this
                                  · exact hstP
                                  · exact hstP
                                · exact hstP
                                · exact hstP
                              · simp only [hex, if_false]; exact hstP
                          have p9 := pimg _ p8
                          rcases himg : imageStage env (emit (emit (emit (emit
                              (emit (emit (emit st2 .gotoHome) .gotoLogin)
                              .typeEmail) .typePassword) .clickSignIn)
                              .clickStartPost) (.typeText t)) ip with ⟨sti, ri⟩
                          rw [himg] at p9
                          cases ri with
                          | error e => simp only [andThen]; exact p9
                          | ok u =>
                            simp only [andThen]
                            have p10 : P (emit sti .locatePostButton) :=
                              hemit _ _ p9 rfl
                            cases hpb : env.postBtnSel <;>
                              simp only [selWait, andThen, hpb]
                            · exact hemit _ _ (hemit _ _ p10 rfl) rfl
                            · exact p10
                            · exact p10
                        · exact p7
                        · exact p7
                      · exact p6
                      · exact p6
                · exact p5
                · exact p5
              · exact p4
              · exact p4
            · exact p4
            · exact p4

/-- A fully cooperative environment: credentials present, every wait
resolves, every element found, download and screenshot succeed. -/
def okEnv : Env :=
  { credsPresent := true, launchOk := true, contextOk := true, pageOk := true,
    homeNavOk := true, homeIdleOk := true, loginNav := fun _ => true,
    loginIdleOk := true, emailSel := .found, passwordSel := .found,
    submitSel := .found, loginWaitOk := true,
    urlAfterLogin := "https://www.linkedin.com/feed/", feedIdleOk := true,
    startPostSel := .found, textboxSel := .found, photoSel := .found,
    fileInputSel := .found, uploadSel := .found, postBtnSel := .found,
    settleRand := 0, uaIdx := 0, vpIdx := 0, tzIdx := 0, geoIdx := 0,
    fileExists := fun _ => true, screenshotOk := true,
    diagUrl := "https://www.linkedin.com/feed/", tempDir := "/tmp" }

theorem pyChoice_mem {α : Type} (l : List α) (h : 0 < l.length) (i : Nat) :
    pyChoice l h i ∈ l :=
  List.get_mem l _ _

theorem toList_append (a b : String) : (a ++ b).toList = a.toList ++ b.toList :=
  rfl

theorem isPrefixOf_self_append {α : Type} [BEq α] [LawfulBEq α]
    (l m : List α) : List.isPrefixOf l (l ++ m) = true := by
  induction l with
  | nil => simp [List.isPrefixOf]
  | cons a t ih => simp [List.isPrefixOf, ih]

/-- A string always starts with its own left append factor. -/
theorem pyStartswith_append (a b : String) : pyStartswith (a ++ b) a = true := by
  unfold pyStartswith
  rw [toList_append]
  exact isPrefixOf_self_append _ _

/-- The name `tempfile.NamedTemporaryFile` produces (directory, separator,
base name) is never the empty string. -/
theorem tempName_not_empty (td b : String) : (td ++ "/" ++ b).isEmpty = false := by
  cases h : (td ++ "/" ++ b).isEmpty with
  | false => rfl
  | true =>
    have h2 : (td ++ "/" ++ b) = "" := (String.isEmpty_iff _).mp h
    have h3 : (td ++ "/" ++ b).toList = ([] : List Char) := by
      rw [h2]
      rfl
    rw [show (td ++ "/" ++ b).toList = td.toList ++ ['/'] ++ b.toList from rfl]
      at h3
    simp at h3

/-- The stage answers under which the run reaches the composer with the
text already typed: credentials present and every wait up to and including
the post text box resolves successfully. -/
def reachesCompose (env : Env) : Prop :=
  env.credsPresent = true ∧ env.launchOk = true ∧ env.contextOk = true ∧
  env.pageOk = true ∧ env.homeNavOk = true ∧ env.homeIdleOk = true ∧
  env.loginNav 0 = true ∧ env.loginIdleOk = true ∧ env.emailSel = .found ∧
  env.passwordSel = .found ∧ env.submitSel = .found ∧ env.loginWaitOk = true ∧
  env.feedIdleOk = true ∧ env.startPostSel = .found ∧ env.textboxSel = .found

/-- The `try` body never emits a browser-close action: only the `finally`
block does. -/
theorem tryBody_no_close (env : Env) (t : String) (ip : Option String) :
    Event.closeBrowser ∉ (tryBody env t ip).1.events := by
  by_cases h1 : env.launchOk = true
  · by_cases h2 : env.contextOk = true
    · refine tryBody_inv env t ip
        (fun st => Event.closeBrowser ∉ st.events) h1 h2 ?_ ?_ ?_
      · simp [ncEvent]
      · intro st e hP he
        simp only [emit, List.mem_append, List.mem_singleton]
        rintro (hc | hc)
        · exact hP hc
        · rw [← hc] at he
          simp [laterEvent] at he
      · intro st hP
        exact hP
    · simp only [Bool.not_eq_true] at h2
      unfold tryBody
      simp [h1, h2, emit, ncEvent]
  · simp only [Bool.not_eq_true] at h1
    unfold tryBody
    simp [h1]

/-- Once the launch call has returned, the `browser` local stays bound for
the rest of the `try` body on every path. -/
theorem tryBody_launched (env : Env) (t : String) (ip : Option String)
    (h1 : env.launchOk = true) :
    (tryBody env t ip).1.browserLaunched = true := by
  by_cases h2 : env.contextOk = true
  · refine tryBody_inv env t ip (fun st => st.browserLaunched = true) h1 h2
      rfl ?_ ?_
    · intro st e hP _
      simpa [emit] using hP
    · intro st hP
      simpa using hP
  · simp only [Bool.not_eq_true] at h2
    unfold tryBody
    simp [h1, h2, emit]

/-- From the context-creation point on, the `try` body emits exactly one
browser-context event, and it carries the fingerprint drawn at run start. -/
theorem tryBody_filter_nc (env : Env) (t : String) (ip : Option String)
    (h1 : env.launchOk = true) (h2 : env.contextOk = true) :
    (tryBody env t ip).1.events.filter isNewContextEv = [ncEvent env] := by
  refine tryBody_inv env t ip
    (fun st => st.events.filter isNewContextEv = [ncEvent env]) h1 h2 ?_ ?_ ?_
  · simp [ncEvent, isNewContextEv]
  · intro st e hP he
    have hne : isNewContextEv e = false := by
      cases e <;> simp [laterEvent] at he <;> rfl
    simp [emit, List.filter_append, hP, hne]
  · intro st hP
    exact hP

/-- C1: for every run that resolved an image (the path is truthy and the
file exists) and whose image-render confirmation selector
`img[alt="Post image"]` does not become visible within its timeout,
`post_to_linkedin` terminates with the upload-verification timeout
failure, the post-submit control is never located or clicked, and the run
does not fall back to submitting a text-only post. -/
theorem C1_upload_fail_never_submits (env : Env) (t p : String)
    (hr : reachesCompose env)
    (hpne : p.isEmpty = false) (hpex : env.fileExists p = true)
    (hph : env.photoSel = .found) (hfi : env.fileInputSel = .found)
    (hup : env.uploadSel = .timedOut) :
    (post_to_linkedin env t (some p)).1 =
      .error (.timeout "img[alt=\"Post image\"]") ∧
    Event.locatePostButton ∉ (post_to_linkedin env t (some p)).2 ∧
    Event.clickPostButton ∉ (post_to_linkedin env t (some p)).2 := by
  obtain ⟨h0, h1, h2, h3, h4, h5, h6, h7, h8, h9, h10, h11, h12, h13, h14⟩ := hr
  cases hscr : env.screenshotOk <;>
    by_cases hTD : pyStartswith p env.tempDir = true <;>
      simp [post_to_linkedin, tryBody, imageStage, andThen, selWait, emit,
        h0, h1, h2, h3, h4, h5, h6, h7, h8, h9, h10, h11, h12, h13, h14,
        hpne, hpex, hph, hfi, hup, hscr, hTD]

/-- Witness for C1 at a concrete cooperative environment whose upload
confirmation times out. -/
theorem C1_upload_fail_never_submits_witness :
    (post_to_linkedin { okEnv with uploadSel := .timedOut } "Hello"
        (some "/tmp/pic.jpg")).1 =
      .error (.timeout "img[alt=\"Post image\"]") ∧
    Event.locatePostButton ∉
      (post_to_linkedin { okEnv with uploadSel := .timedOut } "Hello"
        (some "/tmp/pic.jpg")).2 ∧
    Event.clickPostButton ∉
      (post_to_linkedin { okEnv with uploadSel := .timedOut } "Hello"
        (some "/tmp/pic.jpg")).2 :=
  C1_upload_fail_never_submits _ "Hello" "/tmp/pic.jpg"
    ⟨rfl, rfl, rfl, rfl, rfl, rfl, rfl, rfl, rfl, rfl, rfl, rfl, rfl, rfl, rfl⟩
    (by decide) rfl rfl rfl rfl

/-- C2: if the post-login wait for the feed URL times out, the outcome is
the distinct challenge-detected exception exactly when the current URL
contains "checkpoint" or "challenge", and otherwise the original generic
timeout failure propagates; the two failures are distinct values. -/
theorem C2_challenge_vs_generic (env : Env) (t : String) (ip : Option String)
    (h0 : env.credsPresent = true) (h1 : env.launchOk = true)
    (h2 : env.contextOk = true) (h3 : env.pageOk = true)
    (h4 : env.homeNavOk = true) (h5 : env.homeIdleOk = true)
    (h6 : env.loginNav 0 = true) (h7 : env.loginIdleOk = true)
    (h8 : env.emailSel = .found) (h9 : env.passwordSel = .found)
    (h10 : env.submitSel = .found) (h11 : env.loginWaitOk = false) :
    ((pyContains env.urlAfterLogin "checkpoint" = true ∨
      pyContains env.urlAfterLogin "challenge" = true) →
      (post_to_linkedin env t ip).1 = .error (.exception loginChallengeMsg)) ∧
    ((pyContains env.urlAfterLogin "checkpoint" = false ∧
      pyContains env.urlAfterLogin "challenge" = false) →
      (post_to_linkedin env t ip).1 =
        .error (.timeout "wait_for_url https://www.linkedin.com/feed/")) ∧
    PyError.exception loginChallengeMsg ≠
      PyError.timeout "wait_for_url https://www.linkedin.com/feed/" := by
  refine ⟨?_, ?_, by simp⟩
  · intro hch
    rcases hch with hc | hc <;>
      simp [post_to_linkedin, tryBody, andThen, selWait, emit,
        h0, h1, h2, h3, h4, h5, h6, h7, h8, h9, h10, h11, hc]
  · rintro ⟨ha, hb⟩
    simp [post_to_linkedin, tryBody, andThen, selWait, emit,
      h0, h1, h2, h3, h4, h5, h6, h7, h8, h9, h10, h11, ha, hb]

/-- A concrete environment whose post-login wait times out while the page
sits on a checkpoint/challenge URL. -/
def challengedEnv : Env :=
  { okEnv with
    loginWaitOk := false,
    urlAfterLogin := "https://www.linkedin.com/checkpoint/challenge/verify" }

/-- Witness for C2 at a concrete environment whose post-login wait times
out on a checkpoint/challenge URL. -/
theorem C2_challenge_vs_generic_witness :
    ((pyContains challengedEnv.urlAfterLogin "checkpoint" = true ∨
      pyContains challengedEnv.urlAfterLogin "challenge" = true) →
      (post_to_linkedin challengedEnv "Hello" none).1 =
        .error (.exception loginChallengeMsg)) ∧
    ((pyContains challengedEnv.urlAfterLogin "checkpoint" = false ∧
      pyContains challengedEnv.urlAfterLogin "challenge" = false) →
      (post_to_linkedin challengedEnv "Hello" none).1 =
        .error (.timeout "wait_for_url https://www.linkedin.com/feed/")) ∧
    PyError.exception loginChallengeMsg ≠
      PyError.timeout "wait_for_url https://www.linkedin.com/feed/" :=
  C2_challenge_vs_generic challengedEnv "Hello" none
    rfl rfl rfl rfl rfl rfl rfl rfl rfl rfl rfl rfl

/-- Prepending the temp directory and a separator always yields a path
that starts with the temp directory. -/
theorem pyStartswith_temp (td a b : String) :
    pyStartswith (td ++ a ++ b) td = true := by
  unfold pyStartswith
  rw [show (td ++ a ++ b).toList = td.toList ++ (a.toList ++ b.toList) from by
    rw [toList_append, toList_append, List.append_assoc]]
  exact isPrefixOf_self_append _ _

/-- A fetch environment whose one-shot URL download succeeds. -/
def dlFetchEnv : FetchEnv :=
  { downloadOk := true, tempStem := "dl_img.jpg", scriptDir := "app",
    localExists := fun _ => false }

/-- C3 counterexample: an image resolved from a URL into the temp
directory survives the missing-credentials exit path, because the
`sys.exit(1)` on line 125 happens before the `try`/`finally` block that
owns the cleanup: the run terminates without ever removing the file. -/
theorem C3_counterexample :
    get_image_path dlFetchEnv "/tmp" "https://cdn.example.com/dl_img.jpg" =
      some "/tmp/dl_img.jpg" ∧
    (post_to_linkedin { okEnv with credsPresent := false } "Hello"
        (some "/tmp/dl_img.jpg")).1 = .error (.sysExit 1) ∧
    Event.removeTemp "/tmp/dl_img.jpg" ∉
      (post_to_linkedin { okEnv with credsPresent := false } "Hello"
        (some "/tmp/dl_img.jpg")).2 :=
  ⟨by decide, rfl, by decide⟩

/-- C3 (amended): for every run that enters the browser scope (credentials
present), a URL-resolved image is removed by the `finally` block on every
exit path — success, any stage failure, or fault. -/
theorem C3_amended (env : Env) (fe : FetchEnv) (t cell : String)
    (hc : env.credsPresent = true)
    (hne : cell.isEmpty = false)
    (hurl : (pyStartswith (pyStrip cell) "http://" ||
             pyStartswith (pyStrip cell) "https://") = true)
    (hdl : fe.downloadOk = true) :
    ∃ p, get_image_path fe env.tempDir cell = some p ∧
      Event.removeTemp p ∈ (post_to_linkedin env t (some p)).2 := by
  refine ⟨env.tempDir ++ "/" ++ fe.tempStem, ?_, ?_⟩
  · simp [get_image_path, hne, hurl, hdl]
  · have hcond : (!(env.tempDir ++ "/" ++ fe.tempStem).isEmpty &&
        pyStartswith (env.tempDir ++ "/" ++ fe.tempStem) env.tempDir) = true := by
      rw [tempName_not_empty, pyStartswith_temp]
      rfl
    unfold post_to_linkedin
    simp [hc, hcond, List.mem_append]

/-- Witness for the amended C3 at a concrete URL image and cooperative
environment. -/
theorem C3_amended_witness :
    ∃ p, get_image_path dlFetchEnv okEnv.tempDir
        "https://cdn.example.com/dl_img.jpg" = some p ∧
      Event.removeTemp p ∈ (post_to_linkedin okEnv "Hello" (some p)).2 :=
  C3_amended okEnv dlFetchEnv "Hello" "https://cdn.example.com/dl_img.jpg"
    rfl (by decide) (by decide) rfl

/-- C4: whenever the launch call returned, the trace of the whole run
contains the browser-close action exactly once (the `finally` block), and
the `try` body — the stages themselves — never closes the browser. -/
theorem C4_browser_closed_exactly_once (env : Env) (t : String)
    (ip : Option String)
    (hc : env.credsPresent = true) (hl : env.launchOk = true) :
    (post_to_linkedin env t ip).2.count Event.closeBrowser = 1 ∧
    Event.closeBrowser ∉ (tryBody env t ip).1.events := by
  have hncl := tryBody_no_close env t ip
  have hbl := tryBody_launched env t ip hl
  refine ⟨?_, hncl⟩
  unfold post_to_linkedin
  rcases h : tryBody env t ip with ⟨st, r⟩
  rw [h] at hncl hbl
  have hcnt : st.events.count Event.closeBrowser = 0 :=
    List.count_eq_zero.mpr hncl
  cases r <;> cases hpc : st.pageCreated <;> cases hscr : env.screenshotOk <;>
    rcases ip with _ | p <;>
      simp [hc, hbl, hpc, hscr, hcnt, List.count_append] <;>
        split_ifs <;> simp

/-- Witness for C4 at a concrete cooperative environment. -/
theorem C4_browser_closed_exactly_once_witness :
    (post_to_linkedin okEnv "Hello" none).2.count Event.closeBrowser = 1 ∧
    Event.closeBrowser ∉ (tryBody okEnv "Hello" none).1.events :=
  C4_browser_closed_exactly_once okEnv "Hello" none rfl rfl

/-- An environment whose login navigation would fail on the first two
attempts and succeed on the third. -/
def retryEnv : Env :=
  { okEnv with loginNav := fun k => decide (2 ≤ k) }

/-- C5 counterexample: even though the environment would let a third
login-navigation attempt succeed, the run fails on the first attempt with
the navigation timeout and never reaches the login page — the script has
no retry loop, so the claimed "fails twice then succeeds on the third
attempt → run proceeds normally" scenario is false on the code. -/
theorem C5_counterexample :
    retryEnv.loginNav 0 = false ∧ retryEnv.loginNav 1 = false ∧
    retryEnv.loginNav 2 = true ∧
    (post_to_linkedin retryEnv "Hello" none).1 =
      .error (.timeout "goto https://www.linkedin.com/login") ∧
    Event.gotoLogin ∉ (post_to_linkedin retryEnv "Hello" none).2 :=
  ⟨rfl, rfl, rfl, rfl, by decide⟩

/-- C5 (amended): navigation to the login surface is attempted exactly
once: the run consults only the environment's answer for attempt 0 (runs
under environments that agree on attempt 0 are identical), and a failure
of that single attempt immediately terminates the run with the navigation
timeout, without reaching the login page. -/
theorem C5_amended (env : Env) (f : Nat → Bool) (t : String)
    (ip : Option String) (hf : f 0 = env.loginNav 0) :
    post_to_linkedin { env with loginNav := f } t ip =
      post_to_linkedin env t ip ∧
    (env.credsPresent = true → env.launchOk = true → env.contextOk = true →
      env.pageOk = true → env.homeNavOk = true → env.homeIdleOk = true →
      env.loginNav 0 = false →
      (post_to_linkedin env t ip).1 =
        .error (.timeout "goto https://www.linkedin.com/login") ∧
      Event.gotoLogin ∉ (post_to_linkedin env t ip).2) := by
  constructor
  · simp only [post_to_linkedin, tryBody, imageStage, hf]
  · intro h0 h1 h2 h3 h4 h5 h6
    cases hscr : env.screenshotOk <;> rcases ip with _ | p <;>
      simp [post_to_linkedin, tryBody, emit, h0, h1, h2, h3, h4, h5, h6,
        hscr]

/-- Witness for the amended C5 at a concrete environment whose first
login-navigation attempt fails. -/
theorem C5_amended_witness :
    post_to_linkedin { { okEnv with loginNav := fun _ => false } with
        loginNav := fun k => decide (2 ≤ k) } "Hello" none =
      post_to_linkedin { okEnv with loginNav := fun _ => false } "Hello"
        none ∧
    (({ okEnv with loginNav := fun _ => false } : Env).credsPresent = true →
      ({ okEnv with loginNav := fun _ => false } : Env).launchOk = true →
      ({ okEnv with loginNav := fun _ => false } : Env).contextOk = true →
      ({ okEnv with loginNav := fun _ => false } : Env).pageOk = true →
      ({ okEnv with loginNav := fun _ => false } : Env).homeNavOk = true →
      ({ okEnv with loginNav := fun _ => false } : Env).homeIdleOk = true →
      ({ okEnv with loginNav := fun _ => false } : Env).loginNav 0 = false →
      (post_to_linkedin { okEnv with loginNav := fun _ => false } "Hello"
          none).1 =
        .error (.timeout "goto https://www.linkedin.com/login") ∧
      Event.gotoLogin ∉
        (post_to_linkedin { okEnv with loginNav := fun _ => false } "Hello"
          none).2) :=
  C5_amended { okEnv with loginNav := fun _ => false }
    (fun k => decide (2 ≤ k)) "Hello" none rfl

/-- C6: every fingerprint component is drawn from its fixed candidate
pool (4 user agents, 5 viewports, 5 timezones, 5 geolocations), and the
run creates exactly one browser context, configured with exactly the
four values drawn once at run start. -/
theorem C6_fingerprint_from_pools (env : Env) (t : String) (ip : Option String)
    (hc : env.credsPresent = true) (h1 : env.launchOk = true)
    (h2 : env.contextOk = true) :
    get_random_user_agent env.uaIdx ∈ user_agents ∧
    get_random_viewport env.vpIdx ∈ viewport_sizes ∧
    get_random_timezone env.tzIdx ∈ timezones ∧
    get_random_geolocation env.geoIdx ∈ geolocations ∧
    (post_to_linkedin env t ip).2.filter isNewContextEv = [ncEvent env] := by
  refine ⟨pyChoice_mem _ _ _, pyChoice_mem _ _ _, pyChoice_mem _ _ _,
    pyChoice_mem _ _ _, ?_⟩
  have hb := tryBody_filter_nc env t ip h1 h2
  unfold post_to_linkedin
  rcases h : tryBody env t ip with ⟨st, r⟩
  rw [h] at hb
  cases r <;> cases hpc : st.pageCreated <;> cases hscr : env.screenshotOk <;>
    cases hbl : st.browserLaunched <;> rcases ip with _ | p <;>
      simp [hc, hpc, hscr, hbl, List.filter_append, hb, isNewContextEv]
  all_goals (intro a hh1 hh2 ha; subst ha; rfl)

/-- Witness for C6 at a concrete cooperative environment. -/
theorem C6_fingerprint_from_pools_witness :
    get_random_user_agent okEnv.uaIdx ∈ user_agents ∧
    get_random_viewport okEnv.vpIdx ∈ viewport_sizes ∧
    get_random_timezone okEnv.tzIdx ∈ timezones ∧
    get_random_geolocation okEnv.geoIdx ∈ geolocations ∧
    (post_to_linkedin okEnv "Hello" none).2.filter isNewContextEv =
      [ncEvent okEnv] :=
  C6_fingerprint_from_pools okEnv "Hello" none rfl rfl rfl

/-- C7: any failure raised inside the `try` body after the page exists is
re-raised unchanged by `post_to_linkedin`; the handler records the current
navigation location and, whenever the screenshot call itself succeeds,
writes the screenshot to the fixed path `error_screenshot.png`. -/
theorem C7_diagnostics_annotate_and_reraise (env : Env) (t : String)
    (ip : Option String) (e : PyError)
    (hc : env.credsPresent = true)
    (herr : (tryBody env t ip).2 = .error e)
    (hpage : (tryBody env t ip).1.pageCreated = true) :
    (post_to_linkedin env t ip).1 = .error e ∧
    Event.recordURL env.diagUrl ∈ (post_to_linkedin env t ip).2 ∧
    (env.screenshotOk = true →
      Event.screenshotSaved errorScreenshotPath ∈
        (post_to_linkedin env t ip).2) := by
  unfold post_to_linkedin
  rcases h : tryBody env t ip with ⟨st, r⟩
  rw [h] at herr hpage
  have hr2 : r = .error e := by simpa using herr
  have hp2 : st.pageCreated = true := by simpa using hpage
  subst hr2
  refine ⟨by simp [hc], ?_, ?_⟩
  · simp [hc, hp2, List.mem_append]
  · intro hs
    simp [hc, hp2, hs, List.mem_append]

/-- Witness for C7 at a concrete environment whose compose trigger never
becomes visible (a failure raised after the page exists). -/
theorem C7_diagnostics_annotate_and_reraise_witness :
    (post_to_linkedin { okEnv with startPostSel := .timedOut } "Hello"
        none).1 =
      .error (.timeout "button[aria-label=\"Start a post\"]") ∧
    Event.recordURL ({ okEnv with startPostSel := .timedOut } : Env).diagUrl ∈
      (post_to_linkedin { okEnv with startPostSel := .timedOut } "Hello"
        none).2 ∧
    (({ okEnv with startPostSel := .timedOut } : Env).screenshotOk = true →
      Event.screenshotSaved errorScreenshotPath ∈
        (post_to_linkedin { okEnv with startPostSel := .timedOut } "Hello"
          none).2) :=
  C7_diagnostics_annotate_and_reraise { okEnv with startPostSel := .timedOut }
    "Hello" none (.timeout "button[aria-label=\"Start a post\"]")
    rfl rfl rfl

/-- C8: image resolution degrades to a text-only post — a failing URL
download and a missing local file both resolve to no image, and a run
given no image publishes text only and succeeds — while a resolved image
whose upload verification fails is fatal, never degraded. -/
theorem C8_resolution_failure_degrades (fe : FetchEnv) (td cellU cellL : String)
    (env : Env) (t p : String)
    (hU : (pyStartswith (pyStrip cellU) "http://" ||
           pyStartswith (pyStrip cellU) "https://") = true)
    (hdl : fe.downloadOk = false)
    (hLne : cellL.isEmpty = false)
    (hLnu : (pyStartswith (pyStrip cellL) "http://" ||
             pyStartswith (pyStrip cellL) "https://") = false)
    (hLex : fe.localExists (fe.scriptDir ++ "/images/" ++ pyStrip cellL) = false)
    (hr : reachesCompose env) (hpb : env.postBtnSel = .found)
    (hpne : p.isEmpty = false) (hpex : env.fileExists p = true)
    (hph : env.photoSel = .found) (hfi : env.fileInputSel = .found)
    (hup : env.uploadSel = .timedOut) :
    get_image_path fe td cellU = none ∧
    get_image_path fe td cellL = none ∧
    (post_to_linkedin env t none).1 = .ok () ∧
    (∀ q, Event.attachImage q ∉ (post_to_linkedin env t none).2) ∧
    (post_to_linkedin env t (some p)).1 =
      .error (.timeout "img[alt=\"Post image\"]") := by
  obtain ⟨h0, h1, h2, h3, h4, h5, h6, h7, h8, h9, h10, h11, h12, h13, h14⟩ := hr
  refine ⟨?_, ?_, ?_, ?_, ?_⟩
  · by_cases he : cellU.isEmpty = true <;> simp [get_image_path, he, hU, hdl]
  · simp [get_image_path, hLne, hLnu, hLex]
  · simp [post_to_linkedin, tryBody, imageStage, andThen, selWait, emit,
      h0, h1, h2, h3, h4, h5, h6, h7, h8, h9, h10, h11, h12, h13, h14, hpb]
  · intro q
    simp [post_to_linkedin, tryBody, imageStage, andThen, selWait, emit,
      h0, h1, h2, h3, h4, h5, h6, h7, h8, h9, h10, h11, h12, h13, h14, hpb]
  · simp [post_to_linkedin, tryBody, imageStage, andThen, selWait, emit,
      h0, h1, h2, h3, h4, h5, h6, h7, h8, h9, h10, h11, h12, h13, h14,
      hpne, hpex, hph, hfi, hup]

/-- A fetch environment in which both resolution attempts fail: the URL
download errors out and no local file exists. -/
def failFetchEnv : FetchEnv :=
  { downloadOk := false, tempStem := "dl_img.jpg", scriptDir := "app",
    localExists := fun _ => false }

/-- Witness for C8 at concrete cells and a concrete environment. -/
theorem C8_resolution_failure_degrades_witness :
    get_image_path failFetchEnv "/tmp" "https://cdn.example.com/a.jpg" =
      none ∧
    get_image_path failFetchEnv "/tmp" "pic.jpg" = none ∧
    (post_to_linkedin { okEnv with uploadSel := .timedOut } "Hello"
        none).1 = .ok () ∧
    (∀ q, Event.attachImage q ∉
      (post_to_linkedin { okEnv with uploadSel := .timedOut } "Hello"
        none).2) ∧
    (post_to_linkedin { okEnv with uploadSel := .timedOut } "Hello"
        (some "/tmp/pic.jpg")).1 =
      .error (.timeout "img[alt=\"Post image\"]") :=
  C8_resolution_failure_degrades failFetchEnv "/tmp"
    "https://cdn.example.com/a.jpg" "pic.jpg"
    { okEnv with uploadSel := .timedOut } "Hello" "/tmp/pic.jpg"
    (by decide) rfl (by decide) (by decide) rfl
    ⟨rfl, rfl, rfl, rfl, rfl, rfl, rfl, rfl, rfl, rfl, rfl, rfl, rfl, rfl, rfl⟩
    rfl (by decide) rfl rfl rfl rfl

/-- C9 counterexample: the settle wait after clicking the post button is
`random.randint(8000, 12000)` milliseconds, not one constant duration —
two successful runs differing only in the randomness draw settle for
8000 ms and 12000 ms respectively, so no single constant is the settle
interval of every run. -/
theorem C9_counterexample :
    (post_to_linkedin okEnv "Hello" none).1 = .ok () ∧
    (post_to_linkedin { okEnv with settleRand := 4000 } "Hello" none).1 =
      .ok () ∧
    Event.settleWait 8000 ∈ (post_to_linkedin okEnv "Hello" none).2 ∧
    Event.settleWait 12000 ∉ (post_to_linkedin okEnv "Hello" none).2 ∧
    Event.settleWait 12000 ∈
      (post_to_linkedin { okEnv with settleRand := 4000 } "Hello" none).2 :=
  ⟨rfl, rfl, by decide, by decide, by decide⟩

/-- C9 (amended): after the submit control is located and clicked the
publisher waits a randomized settle interval drawn from 8000-12000 ms
inclusive, and success is declared solely because that timed wait
completed without an error. -/
theorem C9_amended (env : Env) (t : String)
    (hr : reachesCompose env) (hpb : env.postBtnSel = .found) :
    (post_to_linkedin env t none).1 = .ok () ∧
    Event.settleWait (pyRandint 8000 12000 env.settleRand) ∈
      (post_to_linkedin env t none).2 ∧
    Event.clickPostButton ∈ (post_to_linkedin env t none).2 ∧
    8000 ≤ pyRandint 8000 12000 env.settleRand ∧
    pyRandint 8000 12000 env.settleRand ≤ 12000 := by
  obtain ⟨h0, h1, h2, h3, h4, h5, h6, h7, h8, h9, h10, h11, h12, h13, h14⟩ := hr
  refine ⟨?_, ?_, ?_, ?_, ?_⟩
  · simp [post_to_linkedin, tryBody, imageStage, andThen, selWait, emit,
      h0, h1, h2, h3, h4, h5, h6, h7, h8, h9, h10, h11, h12, h13, h14, hpb]
  · simp [post_to_linkedin, tryBody, imageStage, andThen, selWait, emit,
      h0, h1, h2, h3, h4, h5, h6, h7, h8, h9, h10, h11, h12, h13, h14, hpb]
  · simp [post_to_linkedin, tryBody, imageStage, andThen, selWait, emit,
      h0, h1, h2, h3, h4, h5, h6, h7, h8, h9, h10, h11, h12, h13, h14, hpb]
  · exact Nat.le_add_right 8000 _
  · have hlt : env.settleRand % 4001 < 4001 := Nat.mod_lt _ (by omega)
    unfold pyRandint
    omega

/-- Witness for the amended C9 at a concrete cooperative environment. -/
theorem C9_amended_witness :
    (post_to_linkedin okEnv "Hello" none).1 = .ok () ∧
    Event.settleWait (pyRandint 8000 12000 okEnv.settleRand) ∈
      (post_to_linkedin okEnv "Hello" none).2 ∧
    Event.clickPostButton ∈ (post_to_linkedin okEnv "Hello" none).2 ∧
    8000 ≤ pyRandint 8000 12000 okEnv.settleRand ∧
    pyRandint 8000 12000 okEnv.settleRand ≤ 12000 :=
  C9_amended okEnv "Hello"
    ⟨rfl, rfl, rfl, rfl, rfl, rfl, rfl, rfl, rfl, rfl, rfl, rfl, rfl, rfl, rfl⟩
    rfl

/-- C10: a set, truthy `POST_SLOT` whose lowercase form is not one of
the three slot keys is returned unvalidated by `get_time_slot`; the
subsequent `COLUMN_MAP[slot]` subscription in both `main` drivers has no
entry, so the run terminates with an uncaught `KeyError` — no typed
failure outcome, no notification, and no post attempt. -/
theorem C10_invalid_slot_keyerror (s : String) (hour : Nat)
    (m : MainEnv) (mp : MainPyEnv) (row rowp : List String)
    (hne : s.isEmpty = false)
    (hnm : pyLower s ∉ (["morning", "afternoon", "evening"] : List String))
    (hg : m.googleCredsOk = true) (hslot : m.postSlot = some s)
    (hdata : 2 ≤ m.sheetData.length)
    (hrow : m.sheetData.tail.find? (isTodayRow m.todayStr) = some row)
    (hsp : mp.secretsPresent = true) (hslotp : mp.postSlot = some s)
    (hdatap : 2 ≤ mp.sheetData.length)
    (hrowp : mp.sheetData.tail.find? (isTodayRow mp.todayStr) = some rowp) :
    get_time_slot (some s) hour = pyLower s ∧
    COLUMN_MAP (pyLower s) = none ∧
    COLUMN_MAP_py (pyLower s) = none ∧
    main_lp m = (.error (.keyError (pyLower s)), [.fetchSheet]) ∧
    main_py mp = (.error (.keyError (pyLower s)), [.fetchSheet]) ∧
    (∀ t i, MEvent.postAttempt t i ∉ (main_lp m).2) ∧
    MEvent.notifyEmail ∉ (main_py mp).2 := by
  simp only [List.mem_cons, List.not_mem_nil, or_false, not_or] at hnm
  obtain ⟨hm1, hm2, hm3⟩ := hnm
  have hcm : COLUMN_MAP (pyLower s) = none := by
    simp [COLUMN_MAP, hm1, hm2, hm3]
  have hcmp : COLUMN_MAP_py (pyLower s) = none := by
    simp [COLUMN_MAP_py, hm1, hm2, hm3]
  have hlen : ¬ (m.sheetData.length < 2) := by omega
  have hlenp : ¬ (mp.sheetData.length < 2) := by omega
  have hml : main_lp m = (.error (.keyError (pyLower s)), [.fetchSheet]) := by
    unfold main_lp
    simp [hg, hlen, hrow, hslot, get_time_slot, hne, hcm]
  have hmp : main_py mp = (.error (.keyError (pyLower s)), [.fetchSheet]) := by
    unfold main_py
    simp [hsp, hlenp, hrowp, hslotp, get_time_slot, hne, hcmp]
  refine ⟨by simp [get_time_slot, hne], hcm, hcmp, hml, hmp, ?_, ?_⟩
  · intro t i
    rw [hml]
    simp
  · rw [hmp]
    simp

/-- Witness for C10 at `POST_SLOT="Night"` and a concrete sheet holding a
row for today. -/
theorem C10_invalid_slot_keyerror_witness :
    get_time_slot (some "Night") 9 = pyLower "Night" ∧
    COLUMN_MAP (pyLower "Night") = none ∧
    COLUMN_MAP_py (pyLower "Night") = none ∧
    main_lp { googleCredsOk := true,
              sheetData := [["Date", "Morning (1 PM)"], ["2026-10-12", "hi"]],
              todayStr := "2026-10-12", postSlot := some "Night", hourNow := 9,
              fetch := ⟨false, "x", "app", fun _ => false⟩, run := okEnv } =
      (.error (.keyError (pyLower "Night")), [.fetchSheet]) ∧
    main_py { secretsPresent := true,
              sheetData := [["Date", "Morning (1 PM)"], ["2026-10-12", "hi"]],
              todayStr := "2026-10-12", postSlot := some "Night",
              hourNow := 9 } =
      (.error (.keyError (pyLower "Night")), [.fetchSheet]) ∧
    (∀ t i, MEvent.postAttempt t i ∉
      (main_lp { googleCredsOk := true,
                 sheetData := [["Date", "Morning (1 PM)"],
                               ["2026-10-12", "hi"]],
                 todayStr := "2026-10-12", postSlot := some "Night",
                 hourNow := 9, fetch := ⟨false, "x", "app", fun _ => false⟩,
                 run := okEnv }).2) ∧
    MEvent.notifyEmail ∉
      (main_py { secretsPresent := true,
                 sheetData := [["Date", "Morning (1 PM)"],
                               ["2026-10-12", "hi"]],
                 todayStr := "2026-10-12", postSlot := some "Night",
                 hourNow := 9 }).2 :=
  C10_invalid_slot_keyerror "Night" 9 _ _ ["2026-10-12", "hi"]
    ["2026-10-12", "hi"] (by decide) (by decide) rfl rfl (by decide) rfl
    rfl rfl (by decide) rfl
